import Mathlib

/-!
Verification development for the ConnectFood backend (src/main.py, src/schemas.py).

The two core pipelines are embedded shallowly over the reals:
the haversine Distance primitive (src/main.py lines 26-33), the Geo-Search
pipeline `nearby_listings` (lines 147-160) and the Matcher pipeline
`compute_match` (lines 169-210).  The external record store is modelled as an
explicit `Store` value threaded through the pipelines; the per-recipient
random draw `random.uniform(0.85, 1.0)` is modelled as an explicit oracle
`fresh : Nat -> Real` supplied by the caller, constrained to [0.85, 1] where a
claim needs it.  Python `round` (round-half-to-even on the decimal value) is
modelled by `rhe`/`pyRound`.
-/

namespace ConnectFood

/-- Embeds `math.radians`: degrees to radians. -/
noncomputable def radians (x : ℝ) : ℝ := x * Real.pi / 180

/-- Embeds `math.atan2 y x`: the two-argument arctangent, with the standard
branch analysis on the sign of `x` (and the C convention atan2(0,0) = 0). -/
noncomputable def atan2 (y x : ℝ) : ℝ :=
  if 0 < x then Real.arctan (y / x)
  else if x < 0 then
    (if 0 ≤ y then Real.arctan (y / x) + Real.pi else Real.arctan (y / x) - Real.pi)
  else
    (if 0 < y then Real.pi / 2 else if y < 0 then -(Real.pi / 2) else 0)

/-- Embeds `haversine_km` (src/main.py lines 26-33): great-circle distance in
kilometers with Earth radius 6371.0 km. -/
noncomputable def haversine_km (lat1 lon1 lat2 lon2 : ℝ) : ℝ :=
  let R : ℝ := 6371.0
  let phi1 := radians lat1
  let phi2 := radians lat2
  let dphi := radians (lat2 - lat1)
  let dlambda := radians (lon2 - lon1)
  let a := Real.sin (dphi / 2) ^ 2 +
    Real.cos phi1 * Real.cos phi2 * Real.sin (dlambda / 2) ^ 2
  let c := 2 * atan2 (Real.sqrt a) (Real.sqrt (1 - a))
  R * c

/-- Round-half-to-even to an integer: the rounding mode of Python `round`
on exact (non-float) values. -/
noncomputable def rhe (x : ℝ) : ℤ :=
  if x - (⌊x⌋ : ℝ) = 1 / 2 then (if Even ⌊x⌋ then ⌊x⌋ else ⌊x⌋ + 1) else round x

/-- Embeds Python `round(x, n)` for `n ≥ 0` digits, on exact real values. -/
noncomputable def pyRound (x : ℝ) (n : ℕ) : ℝ := (rhe (x * 10 ^ n) : ℝ) / 10 ^ n

/-- Listing lifecycle status (src/schemas.py line 32). -/
inductive ListingStatus
  | available
  | claimed
  | completed
  | expired
  deriving DecidableEq

/-- Account role (src/schemas.py line 10). -/
inductive Role
  | donor
  | recipient
  deriving DecidableEq

/-- Match lifecycle status (src/schemas.py line 41). -/
inductive MatchStatus
  | proposed
  | accepted
  | rejected
  | in_transit
  | delivered
  deriving DecidableEq

/-- A stored listing document (src/schemas.py `Listing`, plus its store id).
Expiry instants are modelled as integers, since the code only compares them. -/
structure Listing where
  id : String
  donor_id : String
  title : String
  type : String
  quantity : ℝ
  unit : String
  lat : ℝ
  lng : ℝ
  expires_at : Option ℤ
  status : ListingStatus

/-- A stored account document (src/schemas.py `Account`, plus its store id). -/
structure Account where
  id : String
  name : String
  role : Role
  lat : Option ℝ
  lng : Option ℝ
  is_active : Bool

/-- A match document (src/schemas.py `Match`). -/
structure MatchRec where
  listing_id : String
  donor_id : String
  recipient_id : String
  score : ℝ
  distance_km : ℝ
  route_eta_min : ℝ
  status : MatchStatus

/-- The external record store: the three collections the two pipelines touch.
The field `match_records` holds the `match` collection (the word `matches` is
reserved in Lean). -/
structure Store where
  listings : List Listing
  accounts : List Account
  match_records : List MatchRec

/-- A listing annotated with its computed `distance_km`, as returned by
Geo-Search (src/main.py line 157). -/
structure AnnListing where
  listing : Listing
  distance_km : ℝ

/-- The filter phase of `nearby_listings` (src/main.py lines 151-158): drop
expired listings, compute the distance, keep in-radius listings whose status
is available or claimed, and annotate each kept listing with the rounded
distance. -/
noncomputable def geoFilter (items : List Listing) (lat lng radius_km : ℝ)
    (now : ℤ) : List AnnListing :=
  items.filterMap fun it =>
    if (match it.expires_at with | some e => decide (e < now) | none => false) then
      none
    else
      let d := haversine_km lat lng it.lat it.lng
      if d ≤ radius_km ∧ (it.status = ListingStatus.available ∨ it.status = ListingStatus.claimed) then
        some ⟨it, pyRound d 2⟩
      else none

/-- Embeds `nearby_listings` (src/main.py lines 147-160): filter, sort
ascending by the annotated distance, report the pre-truncation count and the
first 100 items. -/
noncomputable def nearby_listings (items : List Listing) (lat lng : ℝ)
    (radius_km : ℝ) (now : ℤ) : ℕ × List AnnListing :=
  let results := (geoFilter items lat lng radius_km now).mergeSort
    (fun a b => decide (a.distance_km ≤ b.distance_km))
  (results.length, results.take 100)

/-- Validity of a listing id string for `bson.ObjectId` (src/main.py line 175):
the external bson library accepts exactly 24-character hexadecimal strings;
any other string raises, which the code turns into a 404. -/
def isHexDigitChar (c : Char) : Bool :=
  decide (('0' ≤ c ∧ c ≤ '9') ∨ ('a' ≤ c ∧ c ≤ 'f') ∨ ('A' ≤ c ∧ c ≤ 'F'))

/-- A string parses as a `bson.ObjectId` iff it has 24 hex characters. -/
def objectIdOk (s : String) : Bool :=
  s.length == 24 && s.toList.all isHexDigitChar

/-- An HTTP-level error, as raised by `HTTPException`. -/
structure HttpError where
  status_code : ℕ
  detail : String
  deriving DecidableEq

/-- The `type_match` term (src/main.py line 193): tests membership of the
lowercased listing type in the one-element tuple holding that same lowercased
listing type. -/
noncomputable def typeMatchTerm (listing : Listing) : ℝ :=
  if listing.type.toLower ∈ [listing.type.toLower] then 1.0 else 0.8

/-- The raw composite score (src/main.py line 195), before rounding and the
upper clamp. -/
noncomputable def rawScore (dist tm fr : ℝ) : ℝ :=
  max 0.0 (1.0 - dist / 20.0) * 0.7 + tm * 0.2 + fr * 0.1

/-- The route ETA in minutes (src/main.py line 196): 40 km/h with a 5-minute
floor. -/
noncomputable def etaMin (dist : ℝ) : ℝ := max 5.0 (dist / 40.0 * 60.0)

/-- The clamp to [0,1] named by the specification composite-score formula. -/
noncomputable def clamp01 (x : ℝ) : ℝ := max 0 (min 1 x)

/-- The loop body of the Matcher (src/main.py lines 190-205): the Match
record built for one recipient `r` with freshness draw `fr`. -/
noncomputable def matchFor (listing : Listing) (r : Account) (fr : ℝ) : MatchRec :=
  let rlat := r.lat.getD 0.0
  let rlng := r.lng.getD 0.0
  let dist := haversine_km listing.lat listing.lng rlat rlng
  let score := rawScore dist (typeMatchTerm listing) fr
  { listing_id := listing.id
    donor_id := listing.donor_id
    recipient_id := r.id
    score := min 1.0 (pyRound score 3)
    distance_km := pyRound dist 2
    route_eta_min := pyRound (etaMin dist) 1
    status := MatchStatus.proposed }

/-- The recipient query of the Matcher (src/main.py line 181): accounts with
role recipient and the active flag set. -/
def activeRecipients (st : Store) : List Account :=
  st.accounts.filter fun a => decide (a.role = Role.recipient) && a.is_active

/-- The Matcher sort order (src/main.py line 209): ascending in the key
`(-score, distance_km)`, that is descending score with ties broken by
ascending distance. -/
noncomputable def matchLE (a b : MatchRec) : Bool :=
  decide (b.score < a.score ∨ (a.score = b.score ∧ a.distance_km ≤ b.distance_km))

/-- The value returned by a successful Matcher invocation, together with the
store it leaves behind. -/
structure MatchResponse where
  store : Store
  returned : List MatchRec

/-- Embeds `compute_match` (src/main.py lines 169-210): resolve the listing
(404 on a non-parsing or unknown id), load active recipients (empty response
if none), build and persist one Match record per recipient, sort by
descending score then ascending distance, and return the top 5. -/
noncomputable def compute_match (st : Store) (listing_id : String)
    (fresh : ℕ → ℝ) : Except HttpError MatchResponse :=
  if objectIdOk listing_id then
    match st.listings.find? (fun l => l.id == listing_id) with
    | none => Except.error ⟨404, "Listing not found"⟩
    | some listing =>
      let recipients := activeRecipients st
      if recipients.isEmpty then Except.ok ⟨st, []⟩
      else
        let created := recipients.mapIdx fun i r => matchFor listing r (fresh i)
        let st' : Store := { st with match_records := st.match_records ++ created }
        Except.ok ⟨st', (created.mergeSort matchLE).take 5⟩
  else Except.error ⟨404, "Listing not found"⟩

/-- The store left behind by a Matcher invocation (unchanged when the
invocation fails). -/
noncomputable def matchStore (st : Store) (listing_id : String)
    (fresh : ℕ → ℝ) : Store :=
  match compute_match st listing_id fresh with
  | Except.ok r => r.store
  | Except.error _ => st

/-- The match list returned by a Matcher invocation (empty when the
invocation fails). -/
noncomputable def matchList (st : Store) (listing_id : String)
    (fresh : ℕ → ℝ) : List MatchRec :=
  match compute_match st listing_id fresh with
  | Except.ok r => r.returned
  | Except.error _ => []

/-- The Match records created by one Matcher invocation that resolved
`listing`: one per active recipient, in recipient order. -/
noncomputable def createdOf (st : Store) (listing : Listing) (fresh : ℕ → ℝ) :
    List MatchRec :=
  (activeRecipients st).mapIdx fun i r => matchFor listing r (fresh i)

/-- Two listings that agree on every field except possibly `quantity`. -/
def sameExceptQuantity (l l' : Listing) : Prop :=
  { l with quantity := 0 } = { l' with quantity := 0 }

/-- A listing 18 degrees of longitude away from the origin, whose id is a
valid 24-character hexadecimal ObjectId string. -/
def farListing : Listing where
  id := "aaaaaaaaaaaaaaaaaaaaaaaa"
  donor_id := "d1"
  title := "rice"
  type := "rice"
  quantity := 2
  unit := "servings"
  lat := 0
  lng := 18
  expires_at := none
  status := ListingStatus.available

/-- A listing at the origin, with a valid ObjectId string as id. -/
def nearListing : Listing where
  id := "bbbbbbbbbbbbbbbbbbbbbbbb"
  donor_id := "d2"
  title := "bread"
  type := "bread"
  quantity := 3
  unit := "servings"
  lat := 0
  lng := 0
  expires_at := none
  status := ListingStatus.available

/-- The recipient record used by concrete Matcher runs. -/
def demoRecipient : Account where
  id := "cccccccccccccccccccccccc"
  name := "rec"
  role := Role.recipient
  lat := some 0
  lng := some 0
  is_active := true

/-- The far listing with a different quantity. -/
def farListingQ : Listing := { farListing with quantity := 7 }

/-! ### Arithmetic facts about round-half-to-even and `pyRound` -/

lemma rhe_intCast (n : ℤ) : rhe (n : ℝ) = n := by
  unfold rhe
  rw [Int.floor_intCast, sub_self, if_neg (by norm_num), round_intCast]

lemma sub_half_le_rhe (x : ℝ) : x - 1 / 2 ≤ (rhe x : ℝ) := by
  unfold rhe
  split_ifs with h1 h2
  · linarith
  · push_cast
    linarith
  · have h := abs_le.mp (abs_sub_round x)
    linarith [h.2]

lemma rhe_le_add_half (x : ℝ) : (rhe x : ℝ) ≤ x + 1 / 2 := by
  unfold rhe
  split_ifs with h1 h2
  · linarith [Int.floor_le x]
  · push_cast
    linarith
  · have h := abs_le.mp (abs_sub_round x)
    linarith [h.1]

lemma le_rhe_of_le {k : ℤ} {x : ℝ} (h : (k : ℝ) ≤ x) : k ≤ rhe x := by
  have h1 := sub_half_le_rhe x
  have h2 : ((k - 1 : ℤ) : ℝ) < (rhe x : ℝ) := by
    push_cast
    linarith
  have h3 : k - 1 < rhe x := Int.cast_lt.mp h2
  omega

lemma rhe_le_of_le {k : ℤ} {x : ℝ} (h : x ≤ (k : ℝ)) : rhe x ≤ k := by
  have h1 := rhe_le_add_half x
  have h2 : (rhe x : ℝ) < ((k + 1 : ℤ) : ℝ) := by
    push_cast
    linarith
  have h3 : rhe x < k + 1 := Int.cast_lt.mp h2
  omega

lemma rhe_nonneg {x : ℝ} (hx : 0 ≤ x) : 0 ≤ rhe x :=
  le_rhe_of_le (show ((0 : ℤ) : ℝ) ≤ x by exact_mod_cast hx)

lemma pyRound_nonneg {x : ℝ} (n : ℕ) (hx : 0 ≤ x) : 0 ≤ pyRound x n := by
  unfold pyRound
  apply div_nonneg _ (by positivity)
  have h : (0 : ℤ) ≤ rhe (x * 10 ^ n) := rhe_nonneg (by positivity)
  exact_mod_cast h

lemma pyRound_le_one {x : ℝ} (n : ℕ) (hx : x ≤ 1) : pyRound x n ≤ 1 := by
  unfold pyRound
  rw [div_le_one (by positivity)]
  have hb : x * 10 ^ n ≤ (((10 : ℤ) ^ n : ℤ) : ℝ) := by
    push_cast
    nlinarith [pow_pos (show (0:ℝ) < 10 by norm_num) n]
  have h := rhe_le_of_le hb
  calc (rhe (x * 10 ^ n) : ℝ) ≤ (((10 : ℤ) ^ n : ℤ) : ℝ) := by exact_mod_cast h
    _ = 10 ^ n := by push_cast; ring

lemma one_le_pyRound {x : ℝ} (n : ℕ) (hx : 1 ≤ x) : 1 ≤ pyRound x n := by
  unfold pyRound
  rw [le_div_iff₀ (by positivity)]
  have hb : (((10 : ℤ) ^ n : ℤ) : ℝ) ≤ x * 10 ^ n := by
    push_cast
    nlinarith [pow_pos (show (0:ℝ) < 10 by norm_num) n]
  have h := le_rhe_of_le hb
  calc (1 : ℝ) * 10 ^ n = (((10 : ℤ) ^ n : ℤ) : ℝ) := by push_cast; ring
    _ ≤ (rhe (x * 10 ^ n) : ℝ) := by exact_mod_cast h

lemma pyRound_le_add (x : ℝ) (n : ℕ) : pyRound x n ≤ x + 1 / (2 * 10 ^ n) := by
  unfold pyRound
  rw [div_le_iff₀ (by positivity)]
  have h := rhe_le_add_half (x * 10 ^ n)
  have hpow : (0:ℝ) < 10 ^ n := by positivity
  calc (rhe (x * 10 ^ n) : ℝ) ≤ x * 10 ^ n + 1 / 2 := h
    _ = (x + 1 / (2 * 10 ^ n)) * 10 ^ n := by field_simp; ring

lemma pyRound_zero (n : ℕ) : pyRound 0 n = 0 := by
  unfold pyRound
  rw [zero_mul]
  have h : rhe ((0 : ℤ) : ℝ) = 0 := rhe_intCast 0
  rw [Int.cast_zero] at h
  rw [h, Int.cast_zero, zero_div]

lemma pyRound_one (n : ℕ) : pyRound 1 n = 1 := by
  unfold pyRound
  rw [one_mul]
  have h : rhe (((10 : ℤ) ^ n : ℤ) : ℝ) = (10 : ℤ) ^ n := rhe_intCast _
  have hc : (((10 : ℤ) ^ n : ℤ) : ℝ) = (10 : ℝ) ^ n := by push_cast; ring
  rw [hc] at h
  rw [h]
  push_cast
  field_simp

/-! ### Facts about the composite score -/

lemma clamp01_eq_min {x : ℝ} (hx : 0 ≤ x) : clamp01 x = min 1 x := by
  unfold clamp01
  rw [max_eq_right (le_min (by norm_num) hx)]

lemma min_one_pyRound {x : ℝ} (hx : 0 ≤ x) :
    min 1 (pyRound x 3) = pyRound (clamp01 x) 3 := by
  rw [clamp01_eq_min hx]
  rcases le_total x 1 with h | h
  · rw [min_eq_right h, min_eq_right (pyRound_le_one 3 h)]
  · rw [min_eq_left h, pyRound_one, min_eq_left (one_le_pyRound 3 h)]

lemma typeMatchTerm_one (l : Listing) : typeMatchTerm l = 1 := by
  unfold typeMatchTerm
  rw [if_pos (List.mem_singleton_self _)]
  norm_num

lemma le_rawScore {d fr : ℝ} (hfr : 0.85 ≤ fr) : 0.285 ≤ rawScore d 1 fr := by
  unfold rawScore
  have h0 : (0 : ℝ) ≤ max 0.0 (1.0 - d / 20.0) := by
    apply le_max_of_le_left
    norm_num
  nlinarith

lemma rawScore_nonneg {d fr : ℝ} (hfr : 0.85 ≤ fr) : 0 ≤ rawScore d 1 fr := by
  linarith [@le_rawScore d fr hfr]

lemma matchFor_score_eq (l : Listing) (r : Account) {fr : ℝ} (hfr : 0.85 ≤ fr) :
    (matchFor l r fr).score =
      pyRound (clamp01 (rawScore
        (haversine_km l.lat l.lng (r.lat.getD 0) (r.lng.getD 0))
        (typeMatchTerm l) fr)) 3 := by
  simp only [matchFor]
  rw [typeMatchTerm_one]
  have hnn : 0 ≤ rawScore (haversine_km l.lat l.lng (r.lat.getD 0) (r.lng.getD 0)) 1 fr :=
    rawScore_nonneg hfr
  have h := min_one_pyRound hnn
  norm_num at h ⊢
  exact h

lemma matchFor_score_bounds (l : Listing) (r : Account) {fr : ℝ} (hfr : 0.85 ≤ fr) :
    0 ≤ (matchFor l r fr).score ∧ (matchFor l r fr).score ≤ 1 := by
  simp only [matchFor]
  rw [typeMatchTerm_one]
  constructor
  · apply le_min (by norm_num)
    exact pyRound_nonneg 3 (rawScore_nonneg hfr)
  · calc min (1.0 : ℝ) (pyRound (rawScore _ 1 fr) 3) ≤ 1.0 := min_le_left _ _
      _ = 1 := by norm_num

/-! ### Facts about the Distance primitive -/

lemma atan2_zero_one : atan2 0 1 = 0 := by
  unfold atan2
  rw [if_pos (by norm_num : (0:ℝ) < 1)]
  norm_num [Real.arctan_zero]

lemma atan2_sin_cos {t : ℝ} (h1 : -(Real.pi/2) < t) (h2 : t < Real.pi/2) :
    atan2 (Real.sin t) (Real.cos t) = t := by
  have hcos_pos : 0 < Real.cos t := Real.cos_pos_of_mem_Ioo ⟨h1, h2⟩
  unfold atan2
  rw [if_pos hcos_pos, ← Real.tan_eq_sin_div_cos, Real.arctan_tan h1 h2]

lemma haversine_self (lat lng : ℝ) : haversine_km lat lng lat lng = 0 := by
  simp only [haversine_km, radians]
  have e0 : (lat - lat) * Real.pi / 180 / 2 = 0 := by ring
  have e1 : (lng - lng) * Real.pi / 180 / 2 = 0 := by ring
  simp only [e0, e1, Real.sin_zero]
  have hs : (0:ℝ)^2 + Real.cos (lat * Real.pi / 180) * Real.cos (lat * Real.pi / 180) * 0^2 = 0 := by
    ring
  simp only [hs, Real.sqrt_zero, sub_zero, Real.sqrt_one, atan2_zero_one]
  ring

lemma haversine_zero_eighteen : haversine_km 0 0 0 18 = 6371 * Real.pi / 10 := by
  simp only [haversine_km, radians]
  have hpi := Real.pi_pos
  have e0 : ((0:ℝ) - 0) * Real.pi / 180 / 2 = 0 := by ring
  have e1 : ((18:ℝ) - 0) * Real.pi / 180 / 2 = Real.pi / 20 := by ring
  have e2 : (0:ℝ) * Real.pi / 180 = 0 := by ring
  simp only [e0, e1, e2, Real.sin_zero, Real.cos_zero]
  have hs : (0:ℝ)^2 + 1 * 1 * Real.sin (Real.pi/20)^2 = Real.sin (Real.pi/20)^2 := by ring
  have hcos : 1 - Real.sin (Real.pi/20)^2 = Real.cos (Real.pi/20)^2 := by
    rw [Real.cos_sq']
  have hsin_nonneg : 0 ≤ Real.sin (Real.pi/20) :=
    Real.sin_nonneg_of_nonneg_of_le_pi (by positivity) (by linarith)
  have hcos_pos : 0 < Real.cos (Real.pi/20) :=
    Real.cos_pos_of_mem_Ioo ⟨by linarith, by linarith⟩
  have hat : atan2 (Real.sin (Real.pi / 20)) (Real.cos (Real.pi / 20)) = Real.pi / 20 :=
    atan2_sin_cos (by linarith) (by linarith)
  simp only [hs, hcos, Real.sqrt_sq hsin_nonneg, Real.sqrt_sq hcos_pos.le, hat]
  ring

/-- Round-half-even evaluation used by the Geo-Search counterexample:
63710 pi is about 200150.868, so it rounds up to 200151. -/
lemma rhe_63710_pi : rhe (63710 * Real.pi) = 200151 := by
  have h1 := Real.pi_gt_d6
  have h2 := Real.pi_lt_d6
  have hlow : (200150.5 : ℝ) < 63710 * Real.pi := by nlinarith
  have hhigh : 63710 * Real.pi < 200151 := by nlinarith
  have hfloor : ⌊(63710 : ℝ) * Real.pi⌋ = 200150 := by
    rw [Int.floor_eq_iff]
    constructor
    · push_cast
      nlinarith
    · push_cast
      nlinarith
  unfold rhe
  rw [hfloor]
  rw [if_neg (by push_cast; intro h; nlinarith)]
  rw [round_eq]
  rw [Int.floor_eq_iff]
  constructor
  · push_cast
    nlinarith
  · push_cast
    nlinarith

lemma pyRound_637pi : pyRound (6371 * Real.pi / 10) 2 = 200151 / 100 := by
  unfold pyRound
  have harg : 6371 * Real.pi / 10 * 10 ^ 2 = 63710 * Real.pi := by
    norm_num
    ring
  rw [harg, rhe_63710_pi]
  norm_num

lemma mergeSort_singleton {α : Type} (a : α) (le : α → α → Bool) :
    [a].mergeSort le = [a] :=
  List.perm_singleton.mp (List.mergeSort_perm [a] le)

/-! ### Concrete records used for evaluations -/

/-- Geo-Search on the far listing with radius exactly 6371 pi / 10 km: the
listing is kept (its distance equals the radius), and its annotated distance
is the rounded-up value 2001.51. -/
lemma geo_far_eval :
    nearby_listings [farListing] 0 0 (6371 * Real.pi / 10) 0 =
      (1, [⟨farListing, 200151 / 100⟩]) := by
  unfold nearby_listings geoFilter
  simp only [List.filterMap_cons, List.filterMap_nil, farListing, haversine_zero_eighteen]
  rw [if_neg (by simp)]
  rw [if_pos (⟨le_refl _, Or.inl trivial⟩ :
    6371 * Real.pi / 10 ≤ 6371 * Real.pi / 10 ∧
      (True ∨ ListingStatus.available = ListingStatus.claimed))]
  simp [mergeSort_singleton, pyRound_637pi]

/-- Geo-Search on the origin listing from the origin: distance 0, annotated 0. -/
lemma geo_near_eval :
    nearby_listings [nearListing] 0 0 10 0 = (1, [⟨nearListing, 0⟩]) := by
  unfold nearby_listings geoFilter
  simp only [List.filterMap_cons, List.filterMap_nil, nearListing, haversine_self]
  rw [if_neg (by simp)]
  rw [if_pos (⟨by norm_num, Or.inl trivial⟩ :
    (0:ℝ) ≤ 10 ∧ (True ∨ ListingStatus.available = ListingStatus.claimed))]
  simp [mergeSort_singleton, pyRound_zero]

/-! ### Scenario analysis of the Matcher -/

lemma compute_match_notfound {st : Store} {lid : String} (fresh : ℕ → ℝ)
    (h : objectIdOk lid = false ∨ st.listings.find? (fun l => l.id == lid) = none) :
    compute_match st lid fresh = Except.error ⟨404, "Listing not found"⟩ := by
  unfold compute_match
  rcases h with h | h
  · rw [if_neg (by simp [h])]
  · by_cases hok : objectIdOk lid = true
    · rw [if_pos hok, h]
    · rw [if_neg hok]

lemma compute_match_empty {st : Store} {lid : String} {listing : Listing} (fresh : ℕ → ℝ)
    (hok : objectIdOk lid = true)
    (hfind : st.listings.find? (fun l => l.id == lid) = some listing)
    (hemp : activeRecipients st = []) :
    compute_match st lid fresh = Except.ok ⟨st, []⟩ := by
  unfold compute_match
  rw [if_pos hok, hfind]
  dsimp only
  rw [if_pos (by rw [hemp]; rfl)]

lemma compute_match_found {st : Store} {lid : String} {listing : Listing} (fresh : ℕ → ℝ)
    (hok : objectIdOk lid = true)
    (hfind : st.listings.find? (fun l => l.id == lid) = some listing)
    (hne : activeRecipients st ≠ []) :
    compute_match st lid fresh =
      Except.ok ⟨{ st with match_records := st.match_records ++ createdOf st listing fresh },
        ((createdOf st listing fresh).mergeSort matchLE).take 5⟩ := by
  unfold compute_match
  rw [if_pos hok, hfind]
  dsimp only
  rw [if_neg (by simpa [List.isEmpty_iff] using hne)]
  rfl

lemma matchStore_of_notfound {st : Store} {lid : String} (fresh : ℕ → ℝ)
    (h : objectIdOk lid = false ∨ st.listings.find? (fun l => l.id == lid) = none) :
    matchStore st lid fresh = st := by
  unfold matchStore
  rw [compute_match_notfound fresh h]

lemma compute_match_cases (st : Store) (lid : String) (fresh : ℕ → ℝ) :
    (matchStore st lid fresh = st ∧ matchList st lid fresh = []) ∨
    ∃ listing, st.listings.find? (fun l => l.id == lid) = some listing ∧
      matchStore st lid fresh =
        { st with match_records := st.match_records ++ createdOf st listing fresh } ∧
      matchList st lid fresh = ((createdOf st listing fresh).mergeSort matchLE).take 5 := by
  by_cases hok : objectIdOk lid = true
  · cases hfind : st.listings.find? (fun l => l.id == lid) with
    | none =>
      left
      have h := @compute_match_notfound st lid fresh (Or.inr hfind)
      unfold matchStore matchList
      rw [h]
      exact ⟨rfl, rfl⟩
    | some listing =>
      by_cases hemp : activeRecipients st = []
      · left
        have h := compute_match_empty fresh hok hfind hemp
        unfold matchStore matchList
        rw [h]
        exact ⟨rfl, rfl⟩
      · right
        refine ⟨listing, rfl, ?_, ?_⟩
        · unfold matchStore
          rw [compute_match_found fresh hok hfind hemp]
        · unfold matchList
          rw [compute_match_found fresh hok hfind hemp]
  · left
    have hfalse : objectIdOk lid = false := by
      cases h2 : objectIdOk lid
      · rfl
      · exact absurd h2 hok
    have h := @compute_match_notfound st lid fresh (Or.inl hfalse)
    unfold matchStore matchList
    rw [h]
    exact ⟨rfl, rfl⟩

lemma createdOf_mem {st : Store} {listing : Listing} {fresh : ℕ → ℝ} {m : MatchRec}
    (hm : m ∈ createdOf st listing fresh) :
    ∃ i, ∃ h : i < (activeRecipients st).length,
      m = matchFor listing ((activeRecipients st)[i]) (fresh i) := by
  unfold createdOf at hm
  rw [List.mem_mapIdx] at hm
  obtain ⟨i, hi, heq⟩ := hm
  exact ⟨i, hi, heq.symm⟩

lemma matchLE_trans : ∀ a b c : MatchRec,
    matchLE a b = true → matchLE b c = true → matchLE a c = true := by
  intro a b c hab hbc
  unfold matchLE at hab hbc ⊢
  rw [decide_eq_true_eq] at hab hbc ⊢
  rcases hab with h1 | ⟨h1, h1d⟩ <;> rcases hbc with h2 | ⟨h2, h2d⟩
  · exact Or.inl (lt_trans h2 h1)
  · exact Or.inl (h2 ▸ h1)
  · exact Or.inl (h1 ▸ h2)
  · exact Or.inr ⟨h1.trans h2, le_trans h1d h2d⟩

lemma matchLE_total : ∀ a b : MatchRec, (matchLE a b || matchLE b a) = true := by
  intro a b
  unfold matchLE
  rw [Bool.or_eq_true, decide_eq_true_eq, decide_eq_true_eq]
  rcases lt_trichotomy a.score b.score with h | h | h
  · exact Or.inr (Or.inl h)
  · rcases le_total a.distance_km b.distance_km with hd | hd
    · exact Or.inl (Or.inr ⟨h, hd⟩)
    · exact Or.inr (Or.inr ⟨h.symm, hd⟩)
  · exact Or.inl (Or.inl h)

lemma sorted_take_matches (l : List MatchRec) :
    List.Pairwise
      (fun a b => b.score < a.score ∨ (a.score = b.score ∧ a.distance_km ≤ b.distance_km))
      ((l.mergeSort matchLE).take 5) := by
  apply List.Pairwise.sublist (List.take_sublist _ _)
  have h := @List.sorted_mergeSort MatchRec matchLE matchLE_trans matchLE_total l
  apply h.imp
  intro a b hab
  simpa [matchLE, decide_eq_true_eq] using hab

/-! ### Quantity independence machinery -/

lemma sameExceptQuantity_fields {l l' : Listing} (h : sameExceptQuantity l l') :
    l.id = l'.id ∧ l.donor_id = l'.donor_id ∧ l.lat = l'.lat ∧
      l.lng = l'.lng ∧ l.type = l'.type := by
  unfold sameExceptQuantity at h
  have h1 := congrArg Listing.id h
  have h2 := congrArg Listing.donor_id h
  have h3 := congrArg Listing.lat h
  have h4 := congrArg Listing.lng h
  have h5 := congrArg Listing.type h
  exact ⟨h1, h2, h3, h4, h5⟩

lemma find?_sameQ {ls ls' : List Listing} (lid : String)
    (h : List.Forall₂ sameExceptQuantity ls ls') :
    Option.Rel sameExceptQuantity
      (ls.find? (fun l => l.id == lid)) (ls'.find? (fun l => l.id == lid)) := by
  induction h with
  | nil => exact Option.Rel.none
  | @cons a b l₁ l₂ ha ht ih =>
    rw [List.find?_cons, List.find?_cons]
    have hid : a.id = b.id := (sameExceptQuantity_fields ha).1
    rw [hid]
    cases hpb : (b.id == lid) with
    | true => exact Option.Rel.some ha
    | false => exact ih

lemma matchFor_congr {l l' : Listing} (h : sameExceptQuantity l l')
    (r : Account) (fr : ℝ) : matchFor l r fr = matchFor l' r fr := by
  obtain ⟨hid, hdonor, hlat, hlng, htype⟩ := sameExceptQuantity_fields h
  unfold matchFor typeMatchTerm
  simp only [hid, hdonor, hlat, hlng, htype]

lemma createdOf_congr {st st' : Store} {lg lg' : Listing} (fresh : ℕ → ℝ)
    (hA : st.accounts = st'.accounts) (h : sameExceptQuantity lg lg') :
    createdOf st lg fresh = createdOf st' lg' fresh := by
  have hrec : activeRecipients st = activeRecipients st' := by
    unfold activeRecipients
    rw [hA]
  unfold createdOf
  rw [← hrec, List.mapIdx_eq_enum_map, List.mapIdx_eq_enum_map]
  apply List.map_congr_left
  intro p hp
  cases p with
  | mk i r =>
    simp only [Function.uncurry]
    exact matchFor_congr h r (fresh i)

/-! ### Geo-Search membership facts and demo records -/

lemma geo_mem {items : List Listing} {lat lng radius : ℝ} {now : ℤ} {a : AnnListing}
    (ha : a ∈ (nearby_listings items lat lng radius now).2) :
    a.listing ∈ items ∧
      haversine_km lat lng a.listing.lat a.listing.lng ≤ radius ∧
      a.distance_km = pyRound (haversine_km lat lng a.listing.lat a.listing.lng) 2 := by
  unfold nearby_listings at ha
  have ha1 : a ∈ (geoFilter items lat lng radius now).mergeSort
      (fun a b => decide (a.distance_km ≤ b.distance_km)) :=
    (List.take_sublist _ _).subset ha
  have ha2 : a ∈ geoFilter items lat lng radius now := List.mem_mergeSort.mp ha1
  unfold geoFilter at ha2
  rw [List.mem_filterMap] at ha2
  obtain ⟨it, hit, hf⟩ := ha2
  by_cases h1 : (match it.expires_at with | some e => decide (e < now) | none => false) = true
  · rw [if_pos h1] at hf
    exact absurd hf (by simp)
  · rw [if_neg h1] at hf
    dsimp only at hf
    by_cases h2 : haversine_km lat lng it.lat it.lng ≤ radius ∧
        (it.status = ListingStatus.available ∨ it.status = ListingStatus.claimed)
    · rw [if_pos h2] at hf
      injection hf with hf
      subst hf
      exact ⟨hit, h2.1, rfl⟩
    · rw [if_neg h2] at hf
      exact absurd hf (by simp)

/-! ### Claim theorems -/

/-- C1: for every listing and every active recipient, the match score computed
by the Matcher equals the composite clamp01(max(0, 1 - dist/20) * 0.7 +
type_match * 0.2 + freshness_factor * 0.1) rounded to 3 decimals, for
freshness draws in [0.85, 1.0], and this value never leaves [0, 1].  The
statement covers both the returned matches and the newly persisted ones. -/
theorem matcher_score_within_unit_interval (st : Store) (lid : String)
    (fresh : ℕ → ℝ) (hf : ∀ i, 0.85 ≤ fresh i ∧ fresh i ≤ 1) :
    ∀ m : MatchRec,
      (m ∈ matchList st lid fresh ∨
        (m ∈ (matchStore st lid fresh).match_records ∧ m ∉ st.match_records)) →
      (0 ≤ m.score ∧ m.score ≤ 1) ∧
      ∃ (l : Listing) (r : Account) (fr : ℝ), 0.85 ≤ fr ∧ fr ≤ 1 ∧
        m.score = pyRound (clamp01 (rawScore
          (haversine_km l.lat l.lng (r.lat.getD 0) (r.lng.getD 0))
          (typeMatchTerm l) fr)) 3 := by
  intro m hm
  rcases compute_match_cases st lid fresh with ⟨hS, hL⟩ | ⟨listing, hfind, hS, hL⟩
  · rcases hm with hm | ⟨hm1, hm2⟩
    · rw [hL] at hm
      exact absurd hm (List.not_mem_nil m)
    · rw [hS] at hm1
      exact absurd hm1 hm2
  · have hmem : m ∈ createdOf st listing fresh := by
      rcases hm with hm | ⟨hm1, hm2⟩
      · rw [hL] at hm
        exact List.mem_mergeSort.mp ((List.take_sublist _ _).subset hm)
      · rw [hS] at hm1
        dsimp only at hm1
        rcases List.mem_append.mp hm1 with h | h
        · exact absurd h hm2
        · exact h
    obtain ⟨i, hi, heq⟩ := createdOf_mem hmem
    subst heq
    refine ⟨matchFor_score_bounds _ _ (hf i).1, ?_⟩
    exact ⟨listing, (activeRecipients st)[i], fresh i, (hf i).1, (hf i).2,
      matchFor_score_eq _ _ (hf i).1⟩

/-- Witness for C1: a concrete run with one listing, one active recipient and
freshness draw 0.9. -/
theorem matcher_score_within_unit_interval_witness :
    (∀ i : ℕ, 0.85 ≤ (fun _ : ℕ => (0.9 : ℝ)) i ∧ (fun _ : ℕ => (0.9 : ℝ)) i ≤ 1) ∧
    (∀ m : MatchRec,
      (m ∈ matchList ⟨[farListing], [demoRecipient], []⟩
          "aaaaaaaaaaaaaaaaaaaaaaaa" (fun _ : ℕ => (0.9 : ℝ)) ∨
        (m ∈ (matchStore ⟨[farListing], [demoRecipient], []⟩
            "aaaaaaaaaaaaaaaaaaaaaaaa" (fun _ : ℕ => (0.9 : ℝ))).match_records ∧
          m ∉ (⟨[farListing], [demoRecipient], []⟩ : Store).match_records)) →
      (0 ≤ m.score ∧ m.score ≤ 1) ∧
      ∃ (l : Listing) (r : Account) (fr : ℝ), 0.85 ≤ fr ∧ fr ≤ 1 ∧
        m.score = pyRound (clamp01 (rawScore
          (haversine_km l.lat l.lng (r.lat.getD 0) (r.lng.getD 0))
          (typeMatchTerm l) fr)) 3) :=
  ⟨fun _ => ⟨by norm_num, by norm_num⟩,
    matcher_score_within_unit_interval _ _ _ (fun _ => ⟨by norm_num, by norm_num⟩)⟩

/-- C2 counterexample: with the far listing (18 degrees of longitude away,
true distance 6371 pi / 10 = 2001.50868... km) and radius exactly
6371 pi / 10, Geo-Search returns the listing, but its annotated
`distance_km` 2001.51 strictly exceeds the radius. -/
theorem geo_annotated_distance_exceeds_radius_cex :
    (nearby_listings [farListing] 0 0 (6371 * Real.pi / 10) 0).2 =
      [⟨farListing, 200151 / 100⟩] ∧
    6371 * Real.pi / 10 < (200151 : ℝ) / 100 := by
  constructor
  · rw [geo_far_eval]
  · have h2 := Real.pi_lt_d6
    nlinarith

/-- C2 (amended): Geo-Search never returns a listing whose computed
(pre-rounding) haversine distance exceeds radius_km; the annotated
`distance_km` equals that distance rounded to 2 decimals and can exceed
radius_km by at most 0.005. -/
theorem geo_search_within_radius (items : List Listing) (lat lng radius : ℝ)
    (now : ℤ) :
    ∀ a ∈ (nearby_listings items lat lng radius now).2,
      haversine_km lat lng a.listing.lat a.listing.lng ≤ radius ∧
      a.distance_km = pyRound (haversine_km lat lng a.listing.lat a.listing.lng) 2 ∧
      a.distance_km ≤ radius + 1 / 200 := by
  intro a ha
  obtain ⟨_, hle, heq⟩ := geo_mem ha
  refine ⟨hle, heq, ?_⟩
  rw [heq]
  have hb := pyRound_le_add (haversine_km lat lng a.listing.lat a.listing.lng) 2
  have he : (1 : ℝ) / (2 * 10 ^ 2) = 1 / 200 := by norm_num
  rw [he] at hb
  linarith

/-- Witness for C2 (amended): the origin listing queried from the origin. -/
theorem geo_search_within_radius_witness :
    (⟨nearListing, 0⟩ : AnnListing) ∈ (nearby_listings [nearListing] 0 0 10 0).2 ∧
    (haversine_km 0 0 (⟨nearListing, 0⟩ : AnnListing).listing.lat
        (⟨nearListing, 0⟩ : AnnListing).listing.lng ≤ 10 ∧
      (⟨nearListing, 0⟩ : AnnListing).distance_km =
        pyRound (haversine_km 0 0 (⟨nearListing, 0⟩ : AnnListing).listing.lat
          (⟨nearListing, 0⟩ : AnnListing).listing.lng) 2 ∧
      (⟨nearListing, 0⟩ : AnnListing).distance_km ≤ 10 + 1 / 200) :=
  ⟨by rw [geo_near_eval]; exact List.mem_singleton_self _,
    geo_search_within_radius [nearListing] 0 0 10 0 _
      (by rw [geo_near_eval]; exact List.mem_singleton_self _)⟩

/-- C3: the Matcher output is sorted in descending order of score with ties
broken in ascending order of distance_km, and contains at most 5 items. -/
theorem matcher_output_sorted_top5 (st : Store) (lid : String) (fresh : ℕ → ℝ) :
    (matchList st lid fresh).length ≤ 5 ∧
    List.Pairwise
      (fun a b => b.score < a.score ∨ (a.score = b.score ∧ a.distance_km ≤ b.distance_km))
      (matchList st lid fresh) := by
  rcases compute_match_cases st lid fresh with ⟨_, hL⟩ | ⟨listing, _, _, hL⟩
  · rw [hL]
    exact ⟨by norm_num, List.Pairwise.nil⟩
  · rw [hL]
    constructor
    · rw [List.length_take]
      exact min_le_left _ _
    · exact sorted_take_matches _

/-- C4: if the listing id does not resolve (it fails to parse as an ObjectId,
or no stored listing has it), the Matcher fails with HTTP 404 and the store
is unchanged, so no Match records are created; it does not return an empty
result. -/
theorem matcher_unresolvable_notfound (st : Store) (lid : String) (fresh : ℕ → ℝ)
    (h : objectIdOk lid = false ∨ st.listings.find? (fun l => l.id == lid) = none) :
    compute_match st lid fresh = Except.error ⟨404, "Listing not found"⟩ ∧
    matchStore st lid fresh = st :=
  ⟨compute_match_notfound fresh h, matchStore_of_notfound fresh h⟩

/-- Witness for C4: the id string "nope" does not parse as an ObjectId. -/
theorem matcher_unresolvable_notfound_witness :
    (objectIdOk "nope" = false ∨
      (⟨[], [], []⟩ : Store).listings.find? (fun l => l.id == "nope") = none) ∧
    (compute_match ⟨[], [], []⟩ "nope" (fun _ : ℕ => (0.9 : ℝ)) =
        Except.error ⟨404, "Listing not found"⟩ ∧
      matchStore ⟨[], [], []⟩ "nope" (fun _ : ℕ => (0.9 : ℝ)) = ⟨[], [], []⟩) :=
  ⟨Or.inl (by decide),
    matcher_unresolvable_notfound ⟨[], [], []⟩ "nope" _ (Or.inl (by decide))⟩

/-- C5: if the listing resolves but there are no active recipients, the
Matcher returns an empty match list without error and leaves the store
unchanged. -/
theorem matcher_no_recipients_empty (st : Store) (lid : String) (fresh : ℕ → ℝ)
    (listing : Listing)
    (hok : objectIdOk lid = true)
    (hfind : st.listings.find? (fun l => l.id == lid) = some listing)
    (hemp : activeRecipients st = []) :
    compute_match st lid fresh = Except.ok ⟨st, []⟩ :=
  compute_match_empty fresh hok hfind hemp

/-- Witness for C5: a store with one listing and no accounts at all. -/
theorem matcher_no_recipients_empty_witness :
    objectIdOk "aaaaaaaaaaaaaaaaaaaaaaaa" = true ∧
    (⟨[farListing], [], []⟩ : Store).listings.find?
      (fun l => l.id == "aaaaaaaaaaaaaaaaaaaaaaaa") = some farListing ∧
    activeRecipients ⟨[farListing], [], []⟩ = [] ∧
    compute_match ⟨[farListing], [], []⟩ "aaaaaaaaaaaaaaaaaaaaaaaa"
      (fun _ : ℕ => (0.9 : ℝ)) = Except.ok ⟨⟨[farListing], [], []⟩, []⟩ :=
  ⟨by decide, rfl, rfl,
    matcher_no_recipients_empty _ _ _ farListing (by decide) rfl rfl⟩

/-- C6: with at least one active recipient, exactly one Match record per
active recipient is appended to the store, each with status proposed, and
every returned match is among the created records (the persisted set is a
superset of the response). -/
theorem matcher_persists_one_per_recipient (st : Store) (lid : String)
    (fresh : ℕ → ℝ) (listing : Listing)
    (hok : objectIdOk lid = true)
    (hfind : st.listings.find? (fun l => l.id == lid) = some listing)
    (hne : activeRecipients st ≠ []) :
    ∃ created : List MatchRec,
      (matchStore st lid fresh).match_records = st.match_records ++ created ∧
      created.length = (activeRecipients st).length ∧
      (∀ m ∈ created, m.status = MatchStatus.proposed) ∧
      (∀ m ∈ matchList st lid fresh, m ∈ created) := by
  refine ⟨createdOf st listing fresh, ?_, ?_, ?_, ?_⟩
  · unfold matchStore
    rw [compute_match_found fresh hok hfind hne]
  · unfold createdOf
    exact List.length_mapIdx
  · intro m hm
    obtain ⟨i, hi, heq⟩ := createdOf_mem hm
    rw [heq]
    rfl
  · intro m hm
    unfold matchList at hm
    rw [compute_match_found fresh hok hfind hne] at hm
    dsimp only at hm
    exact List.mem_mergeSort.mp ((List.take_sublist _ _).subset hm)

/-- Witness for C6: one listing and one active recipient. -/
theorem matcher_persists_one_per_recipient_witness :
    objectIdOk "aaaaaaaaaaaaaaaaaaaaaaaa" = true ∧
    (⟨[farListing], [demoRecipient], []⟩ : Store).listings.find?
      (fun l => l.id == "aaaaaaaaaaaaaaaaaaaaaaaa") = some farListing ∧
    activeRecipients ⟨[farListing], [demoRecipient], []⟩ ≠ [] ∧
    ∃ created : List MatchRec,
      (matchStore ⟨[farListing], [demoRecipient], []⟩ "aaaaaaaaaaaaaaaaaaaaaaaa"
        (fun _ : ℕ => (0.9 : ℝ))).match_records =
        (⟨[farListing], [demoRecipient], []⟩ : Store).match_records ++ created ∧
      created.length =
        (activeRecipients ⟨[farListing], [demoRecipient], []⟩).length ∧
      (∀ m ∈ created, m.status = MatchStatus.proposed) ∧
      (∀ m ∈ matchList ⟨[farListing], [demoRecipient], []⟩
          "aaaaaaaaaaaaaaaaaaaaaaaa" (fun _ : ℕ => (0.9 : ℝ)), m ∈ created) :=
  ⟨by decide, rfl, by simp [activeRecipients, demoRecipient],
    matcher_persists_one_per_recipient _ _ _ farListing (by decide) rfl
      (by simp [activeRecipients, demoRecipient])⟩

/-- C7: the type_match term always evaluates to 1.0 (the matched value); the
0.8 branch is unreachable because the listing category is compared with
itself, so every Matcher score uses type_match = 1. -/
theorem type_match_always_matched :
    (∀ l : Listing, typeMatchTerm l = 1) ∧
    ∀ (l : Listing) (r : Account) (fr : ℝ),
      (matchFor l r fr).score =
        min 1 (pyRound (rawScore
          (haversine_km l.lat l.lng (r.lat.getD 0) (r.lng.getD 0)) 1 fr) 3) := by
  refine ⟨typeMatchTerm_one, ?_⟩
  intro l r fr
  simp only [matchFor]
  rw [typeMatchTerm_one]
  norm_num

/-- C8: the Distance primitive is symmetric, for all real coordinates (in
particular for all valid Coordinate pairs). -/
theorem haversine_symmetric (lat1 lon1 lat2 lon2 : ℝ) :
    haversine_km lat1 lon1 lat2 lon2 = haversine_km lat2 lon2 lat1 lon1 := by
  simp only [haversine_km]
  have ha : Real.sin (radians (lat2 - lat1) / 2) ^ 2 +
      Real.cos (radians lat1) * Real.cos (radians lat2) *
        Real.sin (radians (lon2 - lon1) / 2) ^ 2
      = Real.sin (radians (lat1 - lat2) / 2) ^ 2 +
      Real.cos (radians lat2) * Real.cos (radians lat1) *
        Real.sin (radians (lon1 - lon2) / 2) ^ 2 := by
    have e1 : radians (lat1 - lat2) / 2 = -(radians (lat2 - lat1) / 2) := by
      unfold radians
      ring
    have e2 : radians (lon1 - lon2) / 2 = -(radians (lon2 - lon1) / 2) := by
      unfold radians
      ring
    rw [e1, e2, Real.sin_neg, Real.sin_neg]
    ring
  rw [ha]

/-- C9: the Matcher is independent of the quantity field: on stores that
agree except for listing quantities, with the same freshness draws, it
returns equal match lists (hence equal scores, distances and ETAs) and
persists equal match collections. -/
theorem matcher_quantity_independent (st st' : Store) (lid : String)
    (fresh : ℕ → ℝ)
    (hL : List.Forall₂ sameExceptQuantity st.listings st'.listings)
    (hA : st.accounts = st'.accounts)
    (hM : st.match_records = st'.match_records) :
    matchList st lid fresh = matchList st' lid fresh ∧
    (matchStore st lid fresh).match_records =
      (matchStore st' lid fresh).match_records := by
  have hrel := find?_sameQ lid hL
  have hrec : activeRecipients st = activeRecipients st' := by
    unfold activeRecipients
    rw [hA]
  by_cases hok : objectIdOk lid = true
  · cases hfind : st.listings.find? (fun l => l.id == lid) with
    | none =>
      cases hfind' : st'.listings.find? (fun l => l.id == lid) with
      | none =>
        have h1 := @compute_match_notfound st lid fresh (Or.inr hfind)
        have h2 := @compute_match_notfound st' lid fresh (Or.inr hfind')
        unfold matchList matchStore
        rw [h1, h2]
        exact ⟨rfl, hM⟩
      | some lg' =>
        rw [hfind, hfind'] at hrel
        cases hrel
    | some lg =>
      cases hfind' : st'.listings.find? (fun l => l.id == lid) with
      | none =>
        rw [hfind, hfind'] at hrel
        cases hrel
      | some lg' =>
        rw [hfind, hfind'] at hrel
        cases hrel with
        | some hq =>
          by_cases hemp : activeRecipients st = []
          · have hemp' : activeRecipients st' = [] := by
              rw [← hrec]
              exact hemp
            have h1 := compute_match_empty fresh hok hfind hemp
            have h2 := compute_match_empty fresh hok hfind' hemp'
            unfold matchList matchStore
            rw [h1, h2]
            exact ⟨rfl, hM⟩
          · have hemp' : activeRecipients st' ≠ [] := by
              rw [← hrec]
              exact hemp
            have h1 := compute_match_found fresh hok hfind hemp
            have h2 := compute_match_found fresh hok hfind' hemp'
            have hc : createdOf st lg fresh = createdOf st' lg' fresh :=
              createdOf_congr fresh hA hq
            unfold matchList matchStore
            rw [h1, h2]
            constructor
            · rw [hc]
            · dsimp only
              rw [hM, hc]
  · have hfalse : objectIdOk lid = false := by
      cases h2 : objectIdOk lid
      · rfl
      · exact absurd h2 hok
    have h1 := @compute_match_notfound st lid fresh (Or.inl hfalse)
    have h2 := @compute_match_notfound st' lid fresh (Or.inl hfalse)
    unfold matchList matchStore
    rw [h1, h2]
    exact ⟨rfl, hM⟩

/-- Witness for C9: two one-listing stores that differ only in the listing
quantity (2 versus 7). -/
theorem matcher_quantity_independent_witness :
    List.Forall₂ sameExceptQuantity
      (⟨[farListing], [demoRecipient], []⟩ : Store).listings
      (⟨[farListingQ], [demoRecipient], []⟩ : Store).listings ∧
    (matchList ⟨[farListing], [demoRecipient], []⟩ "aaaaaaaaaaaaaaaaaaaaaaaa"
        (fun _ : ℕ => (0.9 : ℝ)) =
      matchList ⟨[farListingQ], [demoRecipient], []⟩ "aaaaaaaaaaaaaaaaaaaaaaaa"
        (fun _ : ℕ => (0.9 : ℝ)) ∧
      (matchStore ⟨[farListing], [demoRecipient], []⟩ "aaaaaaaaaaaaaaaaaaaaaaaa"
        (fun _ : ℕ => (0.9 : ℝ))).match_records =
      (matchStore ⟨[farListingQ], [demoRecipient], []⟩ "aaaaaaaaaaaaaaaaaaaaaaaa"
        (fun _ : ℕ => (0.9 : ℝ))).match_records) :=
  ⟨List.Forall₂.cons rfl List.Forall₂.nil,
    matcher_quantity_independent _ _ _ _
      (List.Forall₂.cons rfl List.Forall₂.nil) rfl rfl⟩

/-- C10: the composite score before clamping is at least 0.285 whenever the
freshness draw is at least 0.85, so the lower branch of the clamp to [0, 1]
is unreachable and clamping reduces to the upper clamp min(1, score). -/
theorem raw_score_lower_clamp_unreachable (d fr : ℝ) (l : Listing)
    (hfr : 0.85 ≤ fr) :
    0.285 ≤ rawScore d (typeMatchTerm l) fr ∧
    clamp01 (rawScore d (typeMatchTerm l) fr) =
      min 1 (rawScore d (typeMatchTerm l) fr) := by
  rw [typeMatchTerm_one]
  exact ⟨le_rawScore hfr, clamp01_eq_min (rawScore_nonneg hfr)⟩

/-- Witness for C10: distance 3 km and freshness draw 0.9. -/
theorem raw_score_lower_clamp_unreachable_witness :
    (0.85 : ℝ) ≤ 0.9 ∧
    (0.285 ≤ rawScore 3 (typeMatchTerm farListing) 0.9 ∧
      clamp01 (rawScore 3 (typeMatchTerm farListing) 0.9) =
        min 1 (rawScore 3 (typeMatchTerm farListing) 0.9)) :=
  ⟨by norm_num, raw_score_lower_clamp_unreachable 3 0.9 farListing (by norm_num)⟩

end ConnectFood
